import Mathlib

set_option linter.unusedVariables false

/-!
Verification development for the dietcoach meal-planning backend.

The JavaScript sources are shallowly embedded here:
  * strings stay strings (JavaScript toLowerCase, trim, split, includes are
    modelled by the corresponding Lean string and list functions),
  * JavaScript numbers become rationals, except the Euclidean score of
    recipeService.js which uses Math.sqrt and is modelled over the reals,
  * nullable fields become Option,
  * the Prisma store becomes an explicit record of tables that is threaded
    through the stateful services; prisma transactions are modelled by
    returning the original store when any step of the body fails, while
    non-transactional writes commit immediately.
-/

/-- Nonemptiness of a string, computed on its character list. -/
def jsStrNonEmpty (s : String) : Bool := !s.toList.isEmpty

/-- Truthiness of a JavaScript string-or-undefined value: undefined, null and
the empty string are falsy, every other string is truthy. -/
def jsTruthy : Option String → Bool
  | none => false
  | some s => jsStrNonEmpty s

/-- JavaScript String.prototype.includes: the needle occurs as a contiguous
substring of the haystack. -/
def jsIncludes (hay needle : String) : Bool :=
  decide (needle.toList <:+: hay.toList)

/-- JavaScript String.prototype.toLowerCase, modelled character by character
(the sources only lowercase ASCII ingredient and tag text). -/
def jsToLower (s : String) : String := String.mk (s.toList.map Char.toLower)

/-- JavaScript String.prototype.trim: strip leading and trailing whitespace. -/
def jsTrim (s : String) : String :=
  String.mk (((s.toList.dropWhile Char.isWhitespace).reverse.dropWhile
    Char.isWhitespace).reverse)

/-- Accumulator loop for splitting a character list at a separator. -/
def jsSplitAux (sep : Char) : List Char → List Char → List String
  | [], acc => [String.mk acc.reverse]
  | c :: rest, acc =>
    if c = sep then String.mk acc.reverse :: jsSplitAux sep rest []
    else jsSplitAux sep rest (c :: acc)

/-- JavaScript String.prototype.split at a one-character separator. -/
def jsSplit (sep : Char) (s : String) : List String := jsSplitAux sep s.toList []

/-- JavaScript Array.prototype.join with a given separator string. -/
def jsJoin (sep : String) (l : List String) : String := String.intercalate sep l

/-- JavaScript Math.abs on rationals. -/
def ratAbs (q : ℚ) : ℚ := if q < 0 then -q else q

/-- Recipe row of the Prisma schema (nutritional values per serving, free
text ingredient and tag lists, optional meal type). -/
structure Recipe where
  id : Nat
  title : String
  ingredients : Option String
  instructions : Option String
  tags : Option String
  mealType : Option String
  caloriesPerServing : Option ℚ
  proteinPerServing : Option ℚ
  carbsPerServing : Option ℚ
  fatPerServing : Option ℚ
  source : Option String
  servings : Option ℚ
deriving DecidableEq

/-- Macro target for one meal slot. -/
structure Macros where
  protein : ℚ
  carbs : ℚ
  fat : ℚ
deriving DecidableEq

/-- UserPreferences row: free text exclusion and cuisine lists plus flags. -/
structure Preferences where
  excludedIngredients : Option String
  preferredCuisines : Option String
  cookingEffort : Option String
  satietyLevel : Option String
deriving DecidableEq

namespace RecipeService
/-!
Embedding of src/services/recipeService.js: the server-filtered matcher
getBestRecipeForMeal and its helpers.  The prisma query
findMany where mealType is modelled as a filter for exact equality of
the mealType column with the requested slot.
-/

/-- Helper parseCSV: split a comma separated string, trim, lowercase and
drop empty entries; null yields the empty list. -/
def parseCSV : Option String → List String
  | none => []
  | some s =>
    ((jsSplit ',' s).map (fun t => jsToLower (jsTrim t))).filter (fun t => jsStrNonEmpty t)

/-- Helper recipeHasExcludedIngredients: an exact-token test, true when some
normalized ingredient token is an element of the excluded list. -/
def recipeHasExcludedIngredients (recipe : Recipe) (excludedIngredients : List String) : Bool :=
  if excludedIngredients.isEmpty then false
  else (parseCSV recipe.ingredients).any (fun ing => excludedIngredients.contains ing)

/-- Helper recipeHasRequiredTags: every required tag must be an element of
the normalized tag list. -/
def recipeHasRequiredTags (recipe : Recipe) (tagsRequired : List String) : Bool :=
  if tagsRequired.isEmpty then true
  else tagsRequired.all (fun tag => (parseCSV recipe.tags).contains tag)

/-- Helper scoreRecipe: Euclidean distance of the per-serving values to the
target, minus 5 per matched preferred tag, plus 5 per matched avoided tag.
Math.sqrt is modelled by Real.sqrt. -/
noncomputable def scoreRecipe (recipe : Recipe) (macroTarget : Macros)
    (tagsPreferred tagsAvoid : List String) : ℝ :=
  let dP : ℝ := ((recipe.proteinPerServing.getD 0 : ℚ) : ℝ) - (macroTarget.protein : ℝ)
  let dC : ℝ := ((recipe.carbsPerServing.getD 0 : ℚ) : ℝ) - (macroTarget.carbs : ℝ)
  let dF : ℝ := ((recipe.fatPerServing.getD 0 : ℚ) : ℝ) - (macroTarget.fat : ℝ)
  let base := Real.sqrt (dP * dP + dC * dC + dF * dF)
  let tags := parseCSV recipe.tags
  let s1 := tagsPreferred.foldl (fun s pref => if tags.contains pref then s - 5 else s) base
  tagsAvoid.foldl (fun s bad => if tags.contains bad then s + 5 else s) s1

open Classical in
/-- Matcher getBestRecipeForMeal: load recipes whose mealType column equals
the requested slot, drop candidates with excluded ingredients or missing
required tags, then return the minimum-scoring candidate (first seen wins on
ties).  There is no acceptance threshold. -/
noncomputable def getBestRecipeForMeal (db : List Recipe) (mealType : String)
    (macroTarget : Macros) (excludedIngredients tagsRequired tagsPreferred tagsAvoid :
    List String) : Option Recipe :=
  let recipes := db.filter (fun r => r.mealType == some mealType)
  match recipes with
  | [] => none
  | _ :: _ =>
    let filtered := recipes.filter (fun r =>
      !recipeHasExcludedIngredients r excludedIngredients &&
      recipeHasRequiredTags r tagsRequired)
    match filtered with
    | [] => none
    | first :: rest =>
      some ((rest.foldl (fun acc r =>
        let s := scoreRecipe r macroTarget tagsPreferred tagsAvoid
        if s < acc.2 then (r, s) else acc)
        (first, scoreRecipe first macroTarget tagsPreferred tagsAvoid)).1)

/-- Alias findRecipeForMeal: delegates to getBestRecipeForMeal with a default
zero target and empty exclusion and tag lists; the preferences and
weeklyIntent arguments are accepted but unused. -/
noncomputable def findRecipeForMeal (db : List Recipe) (mealType : String)
    (macros : Option Macros) (preferences : Option Preferences) : Option Recipe :=
  getBestRecipeForMeal db mealType (macros.getD ⟨0, 0, 0⟩) [] [] [] []

end RecipeService

namespace RecipeService5
/-!
Embedding of the second recipeService.js variant (client-side filtering,
Manhattan distance, satiety penalty and acceptance threshold 80).
-/

/-- Helper macroDistance: Manhattan distance between the target macros and
the per-serving values of a recipe; Math.abs is modelled by ratAbs. -/
def macroDistance (target : Macros) (recipe : Recipe) : ℚ :=
  let dp := ratAbs ((recipe.proteinPerServing.getD 0) - target.protein)
  let dc := ratAbs ((recipe.carbsPerServing.getD 0) - target.carbs)
  let df := ratAbs ((recipe.fatPerServing.getD 0) - target.fat)
  dp + dc + df

/-- Helper normalizeList: split a comma separated string, trim, lowercase
and drop empty entries; null yields the empty list. -/
def normalizeList : Option String → List String
  | none => []
  | some s =>
    ((jsSplit ',' s).map (fun t => jsToLower (jsTrim t))).filter (fun t => jsStrNonEmpty t)

/-- Helper violatesPreferences: true when some normalized ingredient entry of
the recipe contains some normalized excluded entry as a substring. -/
def violatesPreferences (recipe : Recipe) (preferences : Option Preferences) : Bool :=
  match preferences with
  | none => false
  | some p =>
    let excluded := normalizeList p.excludedIngredients
    if excluded.isEmpty then false
    else (normalizeList recipe.ingredients).any
      (fun ing => excluded.any (fun ex => jsIncludes ing ex))

/-- Helper fitsMealType: a recipe fits the requested slot when its mealType
is unset (falsy) or equal to the requested one. -/
def fitsMealType (mealType : Option String) (recipe : Recipe) : Bool :=
  !(jsTruthy recipe.mealType) || recipe.mealType == mealType

/-- Satiety adjustment of the scoring loop: 10 when the user asked for high
satiety and the recipe tags lack high_satiety, otherwise 0. -/
def satietyBonus (preferences : Option Preferences) (recipe : Recipe) : ℚ :=
  match preferences with
  | none => 0
  | some p =>
    if p.satietyLevel == some "high" then
      if (normalizeList recipe.tags).contains "high_satiety" then 0 else 10
    else 0

/-- Score of one candidate in the selection loop of findRecipeForMeal. -/
def scoreOf (preferences : Option Preferences) (macros : Macros) (recipe : Recipe) : ℚ :=
  macroDistance macros recipe + satietyBonus preferences recipe

/-- Minimum-of-list loop: starting from best null and bestScore infinity,
keep the strictly smaller score, so the first seen wins on ties. -/
def pickBest (recipes : List Recipe) (score : Recipe → ℚ) : Option (Recipe × ℚ) :=
  recipes.foldl (fun acc r =>
    let s := score r
    match acc with
    | none => some (r, s)
    | some (b, bs) => if s < bs then some (r, s) else some (b, bs)) none

/-- Matcher findRecipeForMeal: load all recipes, keep those fitting the
requested slot (null mealType is a wildcard), drop candidates violating the
preferences, pick the minimum score and apply the acceptance threshold
MAX_DISTANCE 80. -/
def findRecipeForMeal (db : List Recipe) (mealType : Option String)
    (macros : Macros) (preferences : Option Preferences) : Option Recipe :=
  match db with
  | [] => none
  | _ :: _ =>
    let recipes := if jsTruthy mealType then db.filter (fitsMealType mealType) else db
    let recipes := recipes.filter (fun r => !violatesPreferences r preferences)
    if recipes.isEmpty then none
    else
      match pickBest recipes (scoreOf preferences macros) with
      | none => none
      | some (best, bestScore) => if bestScore > 80 then none else some best

end RecipeService5

namespace RecipeService5

/-- Specification of the selection loop: a returned pair consists of a list
element together with its score. -/
theorem pickBest_spec (score : Recipe → ℚ) :
    ∀ (l : List Recipe) (acc : Option (Recipe × ℚ)) (b : Recipe) (s : ℚ),
    (l.foldl (fun acc r =>
      let s := score r
      match acc with
      | none => some (r, s)
      | some (b, bs) => if s < bs then some (r, s) else some (b, bs)) acc) = some (b, s) →
    acc = some (b, s) ∨ (b ∈ l ∧ s = score b) := by
  intro l
  induction l with
  | nil => intro acc b s h; exact Or.inl h
  | cons r rest ih =>
    intro acc b s h
    rcases ih _ b s h with hstep | hmem
    · rcases acc with _ | ⟨b0, bs0⟩
      · have hbs : some (r, score r) = some (b, s) := hstep
        have hpair := Option.some.inj hbs
        have hb : r = b := congrArg Prod.fst hpair
        have hs : score r = s := congrArg Prod.snd hpair
        subst hb; subst hs
        exact Or.inr ⟨List.mem_cons_self r rest, rfl⟩
      · have hif : (if score r < bs0 then some (r, score r) else some (b0, bs0))
            = some (b, s) := hstep
        by_cases hlt : score r < bs0
        · rw [if_pos hlt] at hif
          have hpair := Option.some.inj hif
          have hb : r = b := congrArg Prod.fst hpair
          have hs : score r = s := congrArg Prod.snd hpair
          subst hb; subst hs
          exact Or.inr ⟨List.mem_cons_self r rest, rfl⟩
        · rw [if_neg hlt] at hif
          exact Or.inl hif
    · exact Or.inr ⟨List.mem_cons_of_mem _ hmem.1, hmem.2⟩

/-- Specification of pickBest: the winner is in the candidate list and its
reported score is its own score. -/
theorem pickBest_mem (l : List Recipe) (score : Recipe → ℚ) (b : Recipe) (s : ℚ)
    (h : pickBest l score = some (b, s)) : b ∈ l ∧ s = score b := by
  rcases pickBest_spec score l none b s h with hcontra | hgood
  · exact Option.noConfusion hcontra
  · exact hgood

/-- Soundness of the matcher with threshold: a returned recipe survived the
preference filter and its score is at most the acceptance threshold 80. -/
theorem findRecipeForMeal_sound (db : List Recipe) (mealType : Option String)
    (macros : Macros) (preferences : Option Preferences) (r : Recipe)
    (h : findRecipeForMeal db mealType macros preferences = some r) :
    violatesPreferences r preferences = false ∧ scoreOf preferences macros r ≤ 80 := by
  match db with
  | [] => exact Option.noConfusion h
  | a :: l =>
    set pool := if jsTruthy mealType then (a :: l).filter (fitsMealType mealType) else (a :: l)
      with hpool
    set cands := pool.filter (fun x => !violatesPreferences x preferences) with hcands
    have h1 : (if cands.isEmpty then none
        else match pickBest cands (scoreOf preferences macros) with
          | none => none
          | some (best, bestScore) => if bestScore > 80 then none else some best)
        = some r := h
    by_cases hempty : cands.isEmpty
    · rw [if_pos hempty] at h1; exact Option.noConfusion h1
    · rw [if_neg hempty] at h1
      rcases hpb : pickBest cands (scoreOf preferences macros) with _ | ⟨b, bs⟩
      · rw [hpb] at h1; exact Option.noConfusion h1
      · rw [hpb] at h1
        have h2 : (if bs > 80 then none else some b) = some r := h1
        by_cases hthr : bs > 80
        · rw [if_pos hthr] at h2; exact Option.noConfusion h2
        · rw [if_neg hthr] at h2
          have hbr : b = r := Option.some.inj h2
          rcases pickBest_mem cands (scoreOf preferences macros) b bs hpb with ⟨hmem, hscore⟩
          subst hbr
          constructor
          · rw [hcands] at hmem
            have hpred := (List.mem_filter.mp hmem).2
            simpa using hpred
          · rw [← hscore]; exact le_of_not_lt hthr

/-- Evaluation helper: on a one-recipe pool whose recipe fits the slot, does
not violate the preferences, and scores at most 80, the matcher returns that
recipe. -/
theorem findRecipeForMeal_singleton (mealType : Option String) (macros : Macros)
    (preferences : Option Preferences) (r : Recipe)
    (hfit : jsTruthy mealType = true → fitsMealType mealType r = true)
    (hviol : violatesPreferences r preferences = false)
    (hthr : ¬ scoreOf preferences macros r > 80) :
    findRecipeForMeal [r] mealType macros preferences = some r := by
  have key : findRecipeForMeal [r] mealType macros preferences
      = (if (((if jsTruthy mealType then [r].filter (fitsMealType mealType) else [r]).filter
            (fun x => !violatesPreferences x preferences)).isEmpty)
          then none
          else match pickBest ((if jsTruthy mealType then [r].filter (fitsMealType mealType)
              else [r]).filter (fun x => !violatesPreferences x preferences))
              (scoreOf preferences macros) with
            | none => none
            | some (best, bestScore) => if bestScore > 80 then none else some best) := rfl
  have hpool : (if jsTruthy mealType then [r].filter (fitsMealType mealType) else [r]) = [r] := by
    by_cases hjt : jsTruthy mealType
    · rw [if_pos hjt]; simp [List.filter, hfit hjt]
    · rw [if_neg hjt]
  rw [key, hpool]
  have hcands : [r].filter (fun x => !violatesPreferences x preferences) = [r] := by
    simp [List.filter, hviol]
  rw [hcands]
  have hpick : pickBest [r] (scoreOf preferences macros)
      = some (r, scoreOf preferences macros r) := rfl
  rw [hpick]
  simp only [List.isEmpty_cons, if_neg]
  rw [if_neg hthr]
  rfl

end RecipeService5

/-! Concrete fixtures used by the claim theorems below. -/

/-- Recipe literal with every optional column null, to be updated per test. -/
def baseRecipe : Recipe :=
  { id := 0
    title := ""
    ingredients := none
    instructions := none
    tags := none
    mealType := none
    caloriesPerServing := none
    proteinPerServing := none
    carbsPerServing := none
    fatPerServing := none
    source := none
    servings := none }

/-- Breakfast macro target of the reference scenario of the spec. -/
def mBreakfast : Macros := ⟨30, 50, 15⟩

/-- Lunch macro target matching the chicken and rice fixture exactly. -/
def mLunch : Macros := ⟨40, 50, 10⟩

/-- Breakfast recipe whose only ingredient text is walnut. -/
def rWalnut : Recipe :=
  { baseRecipe with
    id := 1
    title := "Walnut Bowl"
    ingredients := some "walnut"
    mealType := some "breakfast"
    caloriesPerServing := some 400
    proteinPerServing := some 30
    carbsPerServing := some 50
    fatPerServing := some 15 }

/-- Lunch recipe with ingredient text black beans, rice. -/
def rBlackBeans : Recipe :=
  { baseRecipe with
    id := 2
    title := "Beans and Rice"
    ingredients := some "black beans, rice"
    mealType := some "lunch"
    proteinPerServing := some 40
    carbsPerServing := some 50
    fatPerServing := some 10 }

/-- Lunch recipe with no excluded ingredient. -/
def rChickenRice : Recipe :=
  { baseRecipe with
    id := 3
    title := "Chicken Rice"
    ingredients := some "chicken, rice"
    mealType := some "lunch"
    proteinPerServing := some 40
    carbsPerServing := some 50
    fatPerServing := some 10 }

/-- Breakfast recipe close to the reference target (28, 48, 14). -/
def rOats : Recipe :=
  { baseRecipe with
    id := 4
    title := "Oats"
    mealType := some "breakfast"
    proteinPerServing := some 28
    carbsPerServing := some 48
    fatPerServing := some 14 }

/-- Recipe with per-serving macros (200, 200, 200), far from every target. -/
def rHuge : Recipe :=
  { baseRecipe with
    id := 5
    title := "Feast"
    mealType := some "breakfast"
    proteinPerServing := some 200
    carbsPerServing := some 200
    fatPerServing := some 200 }

/-- Recipe with a null mealType and a perfect breakfast macro match. -/
def rNullType : Recipe :=
  { baseRecipe with
    id := 6
    title := "Anytime Bowl"
    ingredients := some "oats"
    proteinPerServing := some 30
    carbsPerServing := some 50
    fatPerServing := some 15 }

/-- Preferences excluding beans and nothing else. -/
def pBeans : Preferences :=
  { excludedIngredients := some "beans"
    preferredCuisines := none
    cookingEffort := none
    satietyLevel := none }

/-- C1, counterexample.  The matcher getBestRecipeForMeal of recipeService.js
matches excluded entries only as exact normalized ingredient tokens, so with
excluded entry nut it still returns a recipe whose ingredient text walnut
contains nut as a substring, and with excluded entry beans it returns the
recipe with ingredient text black beans, rice. -/
theorem c1_counterexample :
    RecipeService.getBestRecipeForMeal [rWalnut] "breakfast" mBreakfast
      ["nut"] [] [] [] = some rWalnut
    ∧ jsIncludes (jsToLower "walnut") "nut" = true
    ∧ RecipeService.getBestRecipeForMeal [rBlackBeans] "lunch" mLunch
      ["beans"] [] [] [] = some rBlackBeans
    ∧ jsIncludes (jsToLower "black beans, rice") "beans" = true :=
  ⟨rfl, by decide, rfl, by decide⟩

/-- C1, amended claim.  For the part_005 matcher findRecipeForMeal, whose
violatesPreferences test is substring based, any returned recipe contains no
normalized excluded entry as a substring of any of its normalized ingredient
entries. -/
theorem c1_theorem (db : List Recipe) (mealType : Option String) (macros : Macros)
    (p : Preferences) (r : Recipe)
    (h : RecipeService5.findRecipeForMeal db mealType macros (some p) = some r) :
    ∀ ex ∈ RecipeService5.normalizeList p.excludedIngredients,
    ∀ ing ∈ RecipeService5.normalizeList r.ingredients,
    jsIncludes ing ex = false := by
  have hv := (RecipeService5.findRecipeForMeal_sound db mealType macros (some p) r h).1
  have hv1 : (if (RecipeService5.normalizeList p.excludedIngredients).isEmpty then false
      else (RecipeService5.normalizeList r.ingredients).any
        (fun ing => (RecipeService5.normalizeList p.excludedIngredients).any
          (fun ex => jsIncludes ing ex))) = false := hv
  intro ex hex ing hing
  by_cases hne : (RecipeService5.normalizeList p.excludedIngredients).isEmpty
  · rw [List.isEmpty_iff] at hne
    rw [hne] at hex
    exact absurd hex (List.not_mem_nil ex)
  · rw [if_neg hne] at hv1
    rw [List.any_eq_false] at hv1
    have h1 := hv1 ing hing
    rw [Bool.not_eq_true, List.any_eq_false] at h1
    have h2 := h1 ex hex
    simpa using h2

/-- C1, witness for the amended claim at a concrete input: with excluded
entry beans the matcher returns the chicken and rice recipe, so beans is not
a substring of the ingredient entry chicken. -/
theorem c1_witness : jsIncludes "chicken" "beans" = false :=
  c1_theorem [rChickenRice] (some "lunch") mLunch pBeans rChickenRice
    (RecipeService5.findRecipeForMeal_singleton (some "lunch") mLunch (some pBeans)
      rChickenRice (fun _ => by decide) (by decide)
      (by simp [RecipeService5.scoreOf, RecipeService5.satietyBonus,
        RecipeService5.macroDistance, ratAbs, rChickenRice, mLunch, pBeans]))
    "beans" (by decide) "chicken" (by decide)

/-- C2, counterexample.  getBestRecipeForMeal of recipeService.js has no
acceptance threshold: the only candidate scores far above 80 (Euclidean
distance of (200, 200, 200) to (30, 50, 15)), yet it is returned instead of
none. -/
theorem c2_counterexample :
    RecipeService.scoreRecipe rHuge mBreakfast [] [] > 80
    ∧ RecipeService.getBestRecipeForMeal [rHuge] "breakfast" mBreakfast
      [] [] [] [] = some rHuge := by
  constructor
  · have hs : RecipeService.scoreRecipe rHuge mBreakfast [] []
        = Real.sqrt ((170 : ℝ) * 170 + 150 * 150 + 185 * 185) := by
      simp [RecipeService.scoreRecipe, rHuge, mBreakfast, baseRecipe]
      norm_num
    rw [gt_iff_lt, hs]
    rw [show ((170 : ℝ) * 170 + 150 * 150 + 185 * 185) = 85625 by norm_num]
    have h80 : (80 : ℝ) < Real.sqrt 85625 := by
      rw [Real.lt_sqrt (by norm_num)]
      norm_num
    exact h80
  · rfl

/-- C2, amended claim.  The acceptance threshold exists only in the part_005
matcher findRecipeForMeal: whenever it returns a recipe, the winning score
(Manhattan distance plus satiety penalty) is at most 80, so if every
candidate scores above 80 it returns none. -/
theorem c2_theorem (db : List Recipe) (mealType : Option String) (macros : Macros)
    (preferences : Option Preferences) (r : Recipe)
    (h : RecipeService5.findRecipeForMeal db mealType macros preferences = some r) :
    RecipeService5.scoreOf preferences macros r ≤ 80 :=
  (RecipeService5.findRecipeForMeal_sound db mealType macros preferences r h).2

/-- C2, witness at the concrete reference scenario of the spec: target
(30, 50, 15), candidate (28, 48, 14), distance 5, well under threshold 80. -/
theorem c2_witness : RecipeService5.scoreOf none mBreakfast rOats ≤ 80 :=
  c2_theorem [rOats] (some "breakfast") mBreakfast none rOats
    (RecipeService5.findRecipeForMeal_singleton (some "breakfast") mBreakfast none rOats
      (fun _ => by decide) (by decide)
      (by simp [RecipeService5.scoreOf, RecipeService5.satietyBonus,
        RecipeService5.macroDistance, ratAbs, rOats, mBreakfast, baseRecipe]
          norm_num))

/-- C7, counterexample.  The server-filtered matcher getBestRecipeForMeal
queries only recipes whose mealType column equals the requested slot, so a
recipe with a null mealType is never in the candidate pool and is not
selectable, even when its macros match the target exactly. -/
theorem c7_counterexample :
    ([rNullType].filter (fun r => r.mealType == some "breakfast")) = []
    ∧ RecipeService.getBestRecipeForMeal [rNullType] "breakfast" mBreakfast
      [] [] [] [] = none :=
  ⟨rfl, rfl⟩

/-- C7, amended claim.  Only the client-filtered part_005 matcher treats a
null mealType as a wildcard: such a recipe always survives the slot filter,
and a single null-mealType candidate within the threshold is returned for
any requested slot. -/
theorem c7_theorem :
    (∀ (mealType : Option String) (db : List Recipe) (r : Recipe),
      r ∈ db → r.mealType = none →
      r ∈ db.filter (RecipeService5.fitsMealType mealType))
    ∧ (∀ (mealType : Option String) (macros : Macros) (r : Recipe),
      r.mealType = none → RecipeService5.macroDistance macros r ≤ 80 →
      RecipeService5.findRecipeForMeal [r] mealType macros none = some r) := by
  constructor
  · intro mealType db r hmem hmt
    rw [List.mem_filter]
    refine ⟨hmem, ?_⟩
    simp [RecipeService5.fitsMealType, hmt, jsTruthy]
  · intro mealType macros r hmt hd
    apply RecipeService5.findRecipeForMeal_singleton
    · intro _
      simp [RecipeService5.fitsMealType, hmt, jsTruthy]
    · rfl
    · have hsc : RecipeService5.scoreOf none macros r
          = RecipeService5.macroDistance macros r := by
        simp [RecipeService5.scoreOf, RecipeService5.satietyBonus]
      rw [gt_iff_lt, hsc, not_lt]
      exact hd

/-- C7, witness: a null-mealType recipe matching the breakfast target is in
the filtered pool for the dinner slot and is returned for the dinner slot. -/
theorem c7_witness :
    rNullType ∈ [rNullType].filter (RecipeService5.fitsMealType (some "dinner"))
    ∧ RecipeService5.findRecipeForMeal [rNullType] (some "dinner") mBreakfast none
      = some rNullType :=
  ⟨c7_theorem.1 (some "dinner") [rNullType] rNullType (by decide) rfl,
   c7_theorem.2 (some "dinner") mBreakfast rNullType rfl
     (by simp [RecipeService5.macroDistance, ratAbs, rNullType, mBreakfast, baseRecipe])⟩

/-- WeeklyIntent row: week start date (modelled as a day number), goal and
notes. -/
structure WeeklyIntent where
  id : Nat
  weekStart : ℤ
  goal : String
  notes : Option String
deriving DecidableEq

/-- MacroProfile row: one macro target triple per meal slot. -/
structure MacroProfile where
  breakfastProtein : ℚ
  breakfastCarbs : ℚ
  breakfastFat : ℚ
  lunchProtein : ℚ
  lunchCarbs : ℚ
  lunchFat : ℚ
  snackProtein : ℚ
  snackCarbs : ℚ
  snackFat : ℚ
  dinnerProtein : ℚ
  dinnerCarbs : ℚ
  dinnerFat : ℚ
deriving DecidableEq

/-- Meal row: dates are day numbers, macro fields are grams, recipeId is
null when no recipe matched. -/
structure Meal where
  mealPlanId : Nat
  date : ℤ
  type : String
  protein : ℚ
  carbs : ℚ
  fat : ℚ
  calories : ℚ
  recipeId : Option Nat
deriving DecidableEq

/-- MealPlan header row. -/
structure MealPlanRow where
  id : Nat
  weekStart : ℤ
  weekEnd : ℤ
  goal : String
  weeklyIntentId : Option Nat
deriving DecidableEq

/-- Explicit model of the Prisma store: one field per table plus id
counters for created rows. -/
structure PlanDB where
  recipes : List Recipe
  macroProfile : Option MacroProfile
  userPreferences : Option Preferences
  weeklyIntents : List WeeklyIntent
  plans : List MealPlanRow
  meals : List Meal
  nextPlanId : Nat
  nextRecipeId : Nat
deriving DecidableEq

/-- Lookup of a meal plan header by id (prisma mealPlan.findUnique). -/
def fetchMealPlan (db : PlanDB) (id : Nat) : Option MealPlanRow :=
  db.plans.find? (fun p => p.id == id)

namespace PlanService
/-!
Embedding of src/services/planService.js generateWeekPlan (the first
variant, lines 51 to 149): a 7 day times 4 slot loop over the macro profile
targets.  The prisma calls are modelled by explicit state passing on PlanDB:
the header create commits immediately (there is no transaction on this
path), and a meal.createMany failure is modelled by the mealInsertFails
flag. -/

/-- Fixed slot list of the assembler: the source has no mealsPerDay
parameter. -/
def MEAL_TYPES : List String := ["breakfast", "lunch", "snack", "dinner"]

/-- Helper buildMacrosMap: the object of per-slot targets read from the
profile. -/
structure MacrosMap where
  breakfast : Macros
  lunch : Macros
  snack : Macros
  dinner : Macros
deriving DecidableEq

/-- Helper buildMacrosMap of planService.js. -/
def buildMacrosMap (profile : MacroProfile) : MacrosMap :=
  { breakfast := ⟨profile.breakfastProtein, profile.breakfastCarbs, profile.breakfastFat⟩
    lunch := ⟨profile.lunchProtein, profile.lunchCarbs, profile.lunchFat⟩
    snack := ⟨profile.snackProtein, profile.snackCarbs, profile.snackFat⟩
    dinner := ⟨profile.dinnerProtein, profile.dinnerCarbs, profile.dinnerFat⟩ }

/-- JavaScript object indexing macrosMap of a slot name; the loop only ever
indexes the four known slot names. -/
def lookupSlot (mm : MacrosMap) (mealType : String) : Macros :=
  if mealType = "breakfast" then mm.breakfast
  else if mealType = "lunch" then mm.lunch
  else if mealType = "snack" then mm.snack
  else mm.dinner

/-- WeeklyIntent selection of planService.js: most recent intent whose
weekStart is at or before the plan week start (prisma findFirst with a lte
filter, ordered by weekStart descending; on ties the earlier row wins). -/
def latestIntentLE (intents : List WeeklyIntent) (weekStart : ℤ) : Option WeeklyIntent :=
  (intents.filter (fun i => i.weekStart ≤ weekStart)).foldl (fun acc i =>
    match acc with
    | none => some i
    | some b => if b.weekStart < i.weekStart then some i else some b) none

/-- One meal record of the assembly loop: macros are the slot target, the
recipe is the matcher result, calories are the recipe calories when present
and the analytic value otherwise. -/
noncomputable def mkMeal (dbRecipes : List Recipe) (preferences : Option Preferences)
    (mm : MacrosMap) (planId : Nat) (weekStart : ℤ) (dayOffset : Nat)
    (mealType : String) : Meal :=
  let target := lookupSlot mm mealType
  let recipe := RecipeService.findRecipeForMeal dbRecipes mealType (some target) preferences
  { mealPlanId := planId
    date := weekStart + (dayOffset : ℤ)
    type := mealType
    protein := target.protein
    carbs := target.carbs
    fat := target.fat
    calories := (recipe.bind (fun r => r.caloriesPerServing)).getD
      (target.protein * 4 + target.carbs * 4 + target.fat * 9)
    recipeId := recipe.map (fun r => r.id) }

/-- The mealsToCreate list of generateWeekPlan: 7 days times the fixed slot
list. -/
noncomputable def generateWeekPlanMeals (dbRecipes : List Recipe)
    (preferences : Option Preferences) (profile : MacroProfile) (planId : Nat)
    (weekStart : ℤ) : List Meal :=
  let macrosMap := buildMacrosMap profile
  (List.range 7).flatMap (fun dayOffset =>
    MEAL_TYPES.map (fun mealType =>
      mkMeal dbRecipes preferences macrosMap planId weekStart dayOffset mealType))

/-- Embedding of generateWeekPlan: header create commits before the meals
are inserted (no transaction); a failing meal createMany leaves the header
in the store.  The pair holds the result and the observable store. -/
noncomputable def generateWeekPlan (db : PlanDB) (weekStart : ℤ)
    (mealInsertFails : Bool) : Except String MealPlanRow × PlanDB :=
  match db.macroProfile with
  | none => (.error "No MacroProfile found. Create one first with POST /macro-profile", db)
  | some profile =>
    let preferences := db.userPreferences
    let weeklyIntent := latestIntentLE db.weeklyIntents weekStart
    let header : MealPlanRow :=
      { id := db.nextPlanId
        weekStart := weekStart
        weekEnd := weekStart + 6
        goal := match weeklyIntent with
          | some wi => if jsTruthy (some wi.goal) then wi.goal else "normal"
          | none => "normal"
        weeklyIntentId := weeklyIntent.map (fun wi => wi.id) }
    let db1 := { db with plans := db.plans ++ [header], nextPlanId := db.nextPlanId + 1 }
    let mealsToCreate := generateWeekPlanMeals db.recipes preferences profile header.id weekStart
    if mealInsertFails then (.error "meal insert failed", db1)
    else
      let db2 := { db1 with meals := db1.meals ++ mealsToCreate }
      (.ok header, db2)

end PlanService

/-- Macro profile with the reference breakfast targets of the spec. -/
def profile0 : MacroProfile :=
  { breakfastProtein := 30
    breakfastCarbs := 50
    breakfastFat := 15
    lunchProtein := 40
    lunchCarbs := 60
    lunchFat := 20
    snackProtein := 15
    snackCarbs := 30
    snackFat := 10
    dinnerProtein := 35
    dinnerCarbs := 45
    dinnerFat := 18 }

/-- C3, counterexample.  The deterministic assembler has no mealsPerDay
parameter: with an empty recipe table and the reference profile it always
builds 28 meals, so the promised count of 7 times mealsPerDay fails already
for mealsPerDay equal to 3. -/
theorem c3_counterexample :
    ¬ (∀ mealsPerDay : Nat, 3 ≤ mealsPerDay → mealsPerDay ≤ 6 →
      (PlanService.generateWeekPlanMeals [] none profile0 1 0).length = 7 * mealsPerDay) := by
  intro h
  have h3 := h 3 (by norm_num) (by norm_num)
  have hlen : (PlanService.generateWeekPlanMeals [] none profile0 1 0).length = 28 := rfl
  rw [hlen] at h3
  omega

/-- C3, amended claim.  For every recipe table, preferences, profile and
week start, the assembled meal list has exactly 7 times 4 entries, its dates
are the contiguous block weekStart plus 0 to 6 with four meals per day, and
its slot labels repeat the fixed list breakfast, lunch, snack, dinner each
day. -/
theorem c3_theorem (dbRecipes : List Recipe) (preferences : Option Preferences)
    (profile : MacroProfile) (planId : Nat) (weekStart : ℤ) :
    (PlanService.generateWeekPlanMeals dbRecipes preferences profile planId weekStart).length
      = 7 * 4
    ∧ (PlanService.generateWeekPlanMeals dbRecipes preferences profile planId
        weekStart).map (fun m => m.date)
      = (List.range 7).flatMap (fun d => List.replicate 4 (weekStart + (d : ℤ)))
    ∧ (PlanService.generateWeekPlanMeals dbRecipes preferences profile planId
        weekStart).map (fun m => m.type)
      = (List.range 7).flatMap (fun _ => PlanService.MEAL_TYPES) :=
  ⟨rfl, rfl, rfl⟩

/-- Store with the reference profile, no preferences, no intents and empty
tables, as after the first configuration step. -/
def db0 : PlanDB :=
  { recipes := []
    macroProfile := some profile0
    userPreferences := none
    weeklyIntents := []
    plans := []
    meals := []
    nextPlanId := 1
    nextRecipeId := 1 }

/-- C4, counterexample.  The deterministic generateWeekPlan creates the plan
header outside any transaction before inserting the meals, so when the meal
insert fails the returned error leaves the header persisted: fetching the
plan by its intended id afterwards finds it instead of not-found. -/
theorem c4_counterexample :
    (PlanService.generateWeekPlan db0 0 true).1 = .error "meal insert failed"
    ∧ fetchMealPlan (PlanService.generateWeekPlan db0 0 true).2 1
      = some { id := 1, weekStart := 0, weekEnd := 6, goal := "normal",
               weeklyIntentId := none } :=
  ⟨rfl, rfl⟩

namespace AiPlanService
/-!
Embedding of the AI plan service (part_000, aiPlanService.js): schema
validated plan shape, the post-generation exclusion check, and the
transactional storeMealPlan.  The OpenAI call plus the zod parse
MealPlanSchema.parse are modelled by the parsed argument of
generateMealPlan, an Except carrying either the validated plan or the
thrown validation error.  prisma.$transaction is modelled by running the
body on the store and returning the original store when the body fails. -/

/-- Recipe object of the zod MealSchema. -/
structure AiRecipe where
  title : String
  ingredients : List String
  instructions : String
  calories : ℚ
  protein : ℚ
  carbs : ℚ
  fats : ℚ
deriving DecidableEq

/-- Meal object of the zod MealSchema. -/
structure AiMeal where
  name : String
  mealType : String
  recipe : AiRecipe
deriving DecidableEq

/-- Day object of the zod MealPlanSchema. -/
structure AiDay where
  dayNumber : ℤ
  meals : List AiMeal
deriving DecidableEq

/-- Validated plan shape of the zod MealPlanSchema. -/
structure AiPlan where
  days : List AiDay
deriving DecidableEq

/-- WeeklyIntent selection of the AI path: simply the most recent intent
(prisma findFirst ordered by weekStart descending, no lte filter). -/
def latestIntentDesc (intents : List WeeklyIntent) : Option WeeklyIntent :=
  intents.foldl (fun acc i =>
    match acc with
    | none => some i
    | some b => if b.weekStart < i.weekStart then some i else some b) none

/-- Inner loop of validateExclusions over the meals of one day: the joined,
lowercased ingredient text is searched for each excluded entry; the first
hit produces the thrown error message. -/
def scanMeals (excluded : List String) : List AiMeal → Option String
  | [] => none
  | meal :: rest =>
    let ing := jsToLower (jsJoin " " meal.recipe.ingredients)
    match excluded.find? (fun ex => jsIncludes ing ex) with
    | some ex => some ("Excluded ingredient \"" ++ ex ++ "\" found in recipe \""
        ++ meal.recipe.title ++ "\". Regenerate.")
    | none => scanMeals excluded rest

/-- Outer loop of validateExclusions over the days. -/
def scanDays (excluded : List String) : List AiDay → Option String
  | [] => none
  | day :: rest =>
    match scanMeals excluded day.meals with
    | some e => some e
    | none => scanDays excluded rest

/-- Embedding of validateExclusions: none when no violation, otherwise the
error message thrown by the source. -/
def validateExclusions (plan : AiPlan) (preferences : Option Preferences) : Option String :=
  match preferences with
  | none => none
  | some p =>
    match p.excludedIngredients with
    | none => none
    | some s =>
      if !(jsStrNonEmpty s) then none
      else
        let excluded := ((jsSplit ',' s).map (fun t => jsToLower (jsTrim t))).filter
          (fun t => jsStrNonEmpty t)
        if excluded.isEmpty then none
        else scanDays excluded plan.days

/-- Recipe deduplication of storeMealPlan: find by case-insensitive title
or create a new recipe row with source openai inside the transaction. -/
def findOrCreateRecipe (tx : PlanDB) (meal : AiMeal) : Recipe × PlanDB :=
  match tx.recipes.find? (fun r => jsToLower r.title == jsToLower meal.recipe.title) with
  | some r => (r, tx)
  | none =>
    let r : Recipe :=
      { id := tx.nextRecipeId
        title := meal.recipe.title
        ingredients := some (jsJoin ", " meal.recipe.ingredients)
        instructions := some meal.recipe.instructions
        tags := none
        mealType := some meal.mealType
        caloriesPerServing := some meal.recipe.calories
        proteinPerServing := some meal.recipe.protein
        carbsPerServing := some meal.recipe.carbs
        fatPerServing := some meal.recipe.fats
        source := some "openai"
        servings := some 1 }
    (r, { tx with recipes := tx.recipes ++ [r], nextRecipeId := tx.nextRecipeId + 1 })

/-- The day and meal pairs of a validated plan in iteration order. -/
def flattenPlan (plan : AiPlan) : List (ℤ × AiMeal) :=
  plan.days.flatMap (fun day => day.meals.map (fun meal => (day.dayNumber, meal)))

/-- Meal inserts of the transaction body, with a forced failure injected at
the meal index failAt: the persisted macro values are the generated recipe
values, not the profile targets. -/
def insertAiMeals (planId : Nat) (start : ℤ) (failAt : Option Nat) :
    List (ℤ × AiMeal) → Nat → PlanDB → Except String PlanDB
  | [], _, tx => .ok tx
  | (dayNumber, meal) :: rest, idx, tx =>
    if failAt == some idx then .error "forced meal insert failure"
    else
      let rtx := findOrCreateRecipe tx meal
      let mealRow : Meal :=
        { mealPlanId := planId
          date := start + (dayNumber - 1)
          type := meal.mealType
          protein := meal.recipe.protein
          carbs := meal.recipe.carbs
          fat := meal.recipe.fats
          calories := meal.recipe.calories
          recipeId := some rtx.1.id }
      insertAiMeals planId start failAt rest (idx + 1)
        { rtx.2 with meals := rtx.2.meals ++ [mealRow] }

/-- Body of the storeMealPlan transaction: create the header, then every
meal and any new recipes. -/
def storeMealPlanBody (tx : PlanDB) (start weekEnd : ℤ) (plan : AiPlan)
    (weeklyIntent : Option WeeklyIntent) (failAt : Option Nat) :
    Except String (MealPlanRow × PlanDB) :=
  let header : MealPlanRow :=
    { id := tx.nextPlanId
      weekStart := start
      weekEnd := weekEnd
      goal := match weeklyIntent with
        | some wi => if jsTruthy (some wi.goal) then wi.goal else "normal"
        | none => "normal"
      weeklyIntentId := weeklyIntent.map (fun wi => wi.id) }
  let tx1 := { tx with plans := tx.plans ++ [header], nextPlanId := tx.nextPlanId + 1 }
  match insertAiMeals header.id start failAt (flattenPlan plan) 0 tx1 with
  | .error e => .error e
  | .ok tx2 => .ok (header, tx2)

/-- Embedding of storeMealPlan: the body runs inside prisma transaction, so
a failing body leaves the store unchanged. -/
def storeMealPlan (db : PlanDB) (start weekEnd : ℤ) (plan : AiPlan)
    (weeklyIntent : Option WeeklyIntent) (failAt : Option Nat) :
    Except String MealPlanRow × PlanDB :=
  match storeMealPlanBody db start weekEnd plan weeklyIntent failAt with
  | .error e => (.error e, db)
  | .ok hdb => (.ok hdb.1, hdb.2)

/-- Embedding of generateMealPlan of part_000: profile check, generation
plus schema validation (the parsed argument), exclusion re-check, then the
transactional store. -/
def generateMealPlan (db : PlanDB) (weekStart : ℤ)
    (parsed : Except String AiPlan) (failAt : Option Nat) :
    Except String MealPlanRow × PlanDB :=
  match db.macroProfile with
  | none => (.error "No MacroProfile found.", db)
  | some _ =>
    let preferences := db.userPreferences
    let weeklyIntent := latestIntentDesc db.weeklyIntents
    let weekEnd := weekStart + 6
    match parsed with
    | .error e => (.error e, db)
    | .ok validated =>
      match validateExclusions validated preferences with
      | some e => (.error e, db)
      | none => storeMealPlan db weekStart weekEnd validated weeklyIntent failAt

end AiPlanService

namespace AiPlanService

/-- The forced failure fires whenever its index lies within the remaining
meal inserts. -/
theorem insertAiMeals_fails (planId : Nat) (start : ℤ) (n : Nat) :
    ∀ (items : List (ℤ × AiMeal)) (idx : Nat) (tx : PlanDB),
    idx ≤ n → n - idx < items.length →
    insertAiMeals planId start (some n) items idx tx
      = .error "forced meal insert failure" := by
  intro items
  induction items with
  | nil => intro idx tx hle hlt; simp at hlt
  | cons item rest ih =>
    intro idx tx hle hlt
    rcases item with ⟨dayNumber, meal⟩
    by_cases hidx : n = idx
    · subst hidx
      simp [insertAiMeals]
    · have hguard : ((some n : Option Nat) == some idx) = false := by
        simp [hidx]
      rw [insertAiMeals, hguard]
      simp only [Bool.false_eq_true, if_false]
      apply ih (idx + 1) _ (by omega) (by simp at hlt; omega)

end AiPlanService

/-- C4, amended claim.  The AI path storeMealPlan is atomic: when a forced
failure hits any meal insert of a plan that has at least that many meals,
the call reports the failure, the store is unchanged, and fetching the plan
by its intended fresh id yields not-found.  The deterministic path does not
share this property (see the counterexample). -/
theorem c4_theorem (db : PlanDB) (start weekEnd : ℤ) (plan : AiPlanService.AiPlan)
    (weeklyIntent : Option WeeklyIntent) (n : Nat)
    (hfresh : ∀ p ∈ db.plans, p.id ≠ db.nextPlanId)
    (hn : n < (AiPlanService.flattenPlan plan).length) :
    (AiPlanService.storeMealPlan db start weekEnd plan weeklyIntent (some n)).1
      = .error "forced meal insert failure"
    ∧ (AiPlanService.storeMealPlan db start weekEnd plan weeklyIntent (some n)).2 = db
    ∧ fetchMealPlan
        (AiPlanService.storeMealPlan db start weekEnd plan weeklyIntent (some n)).2
        db.nextPlanId = none := by
  have hins : ∀ tx : PlanDB, AiPlanService.insertAiMeals db.nextPlanId start (some n)
      (AiPlanService.flattenPlan plan) 0 tx = .error "forced meal insert failure" :=
    fun tx => AiPlanService.insertAiMeals_fails db.nextPlanId start n
      (AiPlanService.flattenPlan plan) 0 tx (Nat.zero_le n) (by simpa using hn)
  have hbody : AiPlanService.storeMealPlanBody db start weekEnd plan weeklyIntent (some n)
      = .error "forced meal insert failure" := by
    rw [AiPlanService.storeMealPlanBody.eq_def]
    simp only [hins]
  have hstore : AiPlanService.storeMealPlan db start weekEnd plan weeklyIntent (some n)
      = (.error "forced meal insert failure", db) := by
    rw [AiPlanService.storeMealPlan.eq_def, hbody]
  refine ⟨by rw [hstore], by rw [hstore], ?_⟩
  rw [hstore]
  simp only
  rw [fetchMealPlan]
  rw [List.find?_eq_none]
  intro p hp
  simpa using hfresh p hp

/-- One day, one breakfast meal AI plan used by the atomicity witness. -/
def aiPlan1 : AiPlanService.AiPlan :=
  { days := [{ dayNumber := 1
               meals := [{ name := "Breakfast"
                           mealType := "breakfast"
                           recipe := { title := "Oat Bowl"
                                       ingredients := ["100g oats"]
                                       instructions := "Mix."
                                       calories := 380
                                       protein := 30
                                       carbs := 50
                                       fats := 15 } }] }] }

/-- C4, witness for the amended claim: forcing the failure on the first meal
insert of a one-meal plan leaves the store unchanged and the intended plan
id unfindable. -/
theorem c4_witness :
    (AiPlanService.storeMealPlan db0 0 6 aiPlan1 none (some 0)).2 = db0
    ∧ fetchMealPlan (AiPlanService.storeMealPlan db0 0 6 aiPlan1 none (some 0)).2
        db0.nextPlanId = none :=
  ⟨(c4_theorem db0 0 6 aiPlan1 none 0 (by simp [db0]) (by decide)).2.1,
   (c4_theorem db0 0 6 aiPlan1 none 0 (by simp [db0]) (by decide)).2.2⟩

/-- AI plan whose single recipe reports 99 grams of protein, unlike the
breakfast target of 30 in the reference profile. -/
def aiPlan99 : AiPlanService.AiPlan :=
  { days := [{ dayNumber := 1
               meals := [{ name := "Breakfast"
                           mealType := "breakfast"
                           recipe := { title := "Protein Oats"
                                       ingredients := ["100g oats", "whey"]
                                       instructions := "Mix."
                                       calories := 380
                                       protein := 99
                                       carbs := 50
                                       fats := 15 } }] }] }

/-- C5, counterexample.  On the AI path the persisted meal macro fields are
the generated recipe values, not the profile targets: with the active
profile demanding 30 grams of breakfast protein, the stored meal carries the
99 grams reported by the recipe. -/
theorem c5_counterexample :
    (AiPlanService.generateMealPlan db0 0 (.ok aiPlan99) none).2.meals.map
      (fun m => m.protein) = [99]
    ∧ db0.macroProfile = some profile0
    ∧ profile0.breakfastProtein = 30
    ∧ (99 : ℚ) ≠ 30 :=
  ⟨rfl, rfl, rfl, by norm_num⟩

/-- C5, amended claim.  On the deterministic path every assembled meal
macro field equals the macro target of its slot as read from the profile,
whether or not a recipe was assigned. -/
theorem c5_theorem (dbRecipes : List Recipe) (preferences : Option Preferences)
    (profile : MacroProfile) (planId : Nat) (weekStart : ℤ) (m : Meal)
    (hm : m ∈ PlanService.generateWeekPlanMeals dbRecipes preferences profile
      planId weekStart) :
    m.protein = (PlanService.lookupSlot (PlanService.buildMacrosMap profile) m.type).protein
    ∧ m.carbs = (PlanService.lookupSlot (PlanService.buildMacrosMap profile) m.type).carbs
    ∧ m.fat = (PlanService.lookupSlot (PlanService.buildMacrosMap profile) m.type).fat := by
  simp only [PlanService.generateWeekPlanMeals, List.mem_flatMap, List.mem_map] at hm
  obtain ⟨d, hd, mt, hmt, rfl⟩ := hm
  refine ⟨?_, ?_, ?_⟩ <;> simp [PlanService.mkMeal]

/-- First meal assembled from an empty recipe table with the reference
profile. -/
noncomputable def meal0 : Meal :=
  PlanService.mkMeal [] none (PlanService.buildMacrosMap profile0) 1 0 0 "breakfast"

/-- C5, witness: the first assembled breakfast meal carries exactly the
breakfast slot target of the reference profile. -/
theorem c5_witness :
    meal0.protein
      = (PlanService.lookupSlot (PlanService.buildMacrosMap profile0) meal0.type).protein
    ∧ meal0.carbs
      = (PlanService.lookupSlot (PlanService.buildMacrosMap profile0) meal0.type).carbs
    ∧ meal0.fat
      = (PlanService.lookupSlot (PlanService.buildMacrosMap profile0) meal0.type).fat :=
  c5_theorem [] none profile0 1 0 meal0
    (by rw [show PlanService.generateWeekPlanMeals [] none profile0 1 0
          = meal0 :: (PlanService.generateWeekPlanMeals [] none profile0 1 0).tail from rfl]
        exact List.mem_cons_self meal0 _)

/-- C6, amended claim.  Every assembled meal without an assigned recipe
derives its calories analytically as protein times 4 plus carbs times 4
plus fat times 9 from its (target) macro fields; at the reference targets
(30, 50, 15) this value is 455, not the 380 of the claim. -/
theorem c6_theorem (dbRecipes : List Recipe) (preferences : Option Preferences)
    (profile : MacroProfile) (planId : Nat) (weekStart : ℤ) (m : Meal)
    (hm : m ∈ PlanService.generateWeekPlanMeals dbRecipes preferences profile
      planId weekStart)
    (hnull : m.recipeId = none) :
    m.calories = m.protein * 4 + m.carbs * 4 + m.fat * 9 := by
  simp only [PlanService.generateWeekPlanMeals, List.mem_flatMap, List.mem_map] at hm
  obtain ⟨d, hd, mt, hmt, rfl⟩ := hm
  simp only [PlanService.mkMeal] at hnull ⊢
  rcases hrec : RecipeService.findRecipeForMeal dbRecipes mt
      (some (PlanService.lookupSlot (PlanService.buildMacrosMap profile) mt)) preferences
    with _ | r
  · simp
  · rw [hrec] at hnull
    exact Option.noConfusion hnull

/-- C6, counterexample to the numeric example of the claim: the unmatched
breakfast meal built from the targets (30, 50, 15) has analytically derived
calories 30 times 4 plus 50 times 4 plus 15 times 9, which is 455, not the
380 promised by the claim. -/
theorem c6_counterexample :
    meal0.protein = 30 ∧ meal0.carbs = 50 ∧ meal0.fat = 15
    ∧ meal0.recipeId = none
    ∧ meal0.calories = 455
    ∧ (455 : ℚ) ≠ 380 :=
  ⟨rfl, rfl, rfl, rfl, show (30 : ℚ) * 4 + 50 * 4 + 15 * 9 = 455 by norm_num,
   by norm_num⟩

/-- C6, witness for the amended claim: the unmatched breakfast meal of the
reference profile has analytically derived calories. -/
theorem c6_witness :
    meal0.calories = meal0.protein * 4 + meal0.carbs * 4 + meal0.fat * 9 :=
  c6_theorem [] none profile0 1 0 meal0
    (by rw [show PlanService.generateWeekPlanMeals [] none profile0 1 0
          = meal0 :: (PlanService.generateWeekPlanMeals [] none profile0 1 0).tail from rfl]
        exact List.mem_cons_self meal0 _)
    rfl

/-- Preferences excluding nuts, used on the AI path. -/
def pNuts : Preferences :=
  { excludedIngredients := some "nuts"
    preferredCuisines := none
    cookingEffort := none
    satietyLevel := none }

/-- Store with the reference profile and the nuts exclusion. -/
def dbExcl : PlanDB :=
  { db0 with userPreferences := some pNuts }

/-- AI plan whose single recipe lists walnuts, so the exclusion re-check
must reject it. -/
def planWalnut : AiPlanService.AiPlan :=
  { days := [{ dayNumber := 1
               meals := [{ name := "Breakfast"
                           mealType := "breakfast"
                           recipe := { title := "Walnut Bowl"
                                       ingredients := ["100g walnuts"]
                                       instructions := "Mix."
                                       calories := 400
                                       protein := 30
                                       carbs := 50
                                       fats := 15 } }] }] }

/-- C8, confirmed claim.  In generateMealPlan the exclusion re-check runs on
the schema-validated plan and before any store write: whenever it reports a
violation, the call returns that error and the store is returned unchanged,
so no header, meal or recipe row of the plan is ever persisted. -/
theorem c8_theorem (db : PlanDB) (weekStart : ℤ) (plan : AiPlanService.AiPlan)
    (failAt : Option Nat) (e : String) (profile : MacroProfile)
    (hprof : db.macroProfile = some profile)
    (hviol : AiPlanService.validateExclusions plan db.userPreferences = some e) :
    AiPlanService.generateMealPlan db weekStart (.ok plan) failAt = (.error e, db) := by
  rw [AiPlanService.generateMealPlan.eq_def, hprof]
  simp only [hviol]

/-- C8, witness: with excluded entry nuts and a generated recipe listing
walnuts (substring match), generateMealPlan reports the violation and
returns the store unchanged. -/
theorem c8_witness :
    AiPlanService.generateMealPlan dbExcl 0 (.ok planWalnut) none
      = (.error "Excluded ingredient \"nuts\" found in recipe \"Walnut Bowl\". Regenerate.",
         dbExcl) :=
  c8_theorem dbExcl 0 planWalnut none
    "Excluded ingredient \"nuts\" found in recipe \"Walnut Bowl\". Regenerate."
    profile0 rfl (by decide)

/-- Error shape of the OpenAI client: an optional HTTP status and an
optional error code. -/
structure ApiError where
  status : Option Nat
  code : Option String
deriving DecidableEq

namespace AiPlanService6
/-!
Embedding of the retry logic of part_006 (the second aiPlanService.js
variant): up to maxRetries attempts of the OpenAI call, retrying only on
status 429 or code ECONNRESET with a sleep of 2 to the attempt power
seconds before the next attempt.  The external call is modelled by the
outcomes function from attempt number to result; the returned list holds
the delays slept, in order.  The loop counter attempt of the source runs
from 1 while attempt is at most maxRetries, and the retry guard is attempt
strictly below maxRetries; retryAux recurses on the number of remaining
retry opportunities maxRetries minus attempt, so the guard becomes
remaining positive. -/

/-- The retry condition of the catch block: rate limit or connection
reset. -/
def shouldRetry (e : ApiError) : Bool :=
  e.status == some 429 || e.code == some "ECONNRESET"

/-- The attempt loop: try the call, rethrow non-retryable errors at once,
sleep 2 to the attempt power times 1000 milliseconds and continue while
retry opportunities remain. -/
def retryAux (outcomes : Nat → Except ApiError α) : Nat → Nat → Except ApiError α × List Nat
  | attempt, remaining =>
    match outcomes attempt with
    | .ok v => (.ok v, [])
    | .error e =>
      match remaining with
      | 0 => (.error e, [])
      | r + 1 =>
        if shouldRetry e then
          let res := retryAux outcomes (attempt + 1) r
          (res.1, (2 ^ attempt * 1000) :: res.2)
        else (.error e, [])

/-- Embedding of the function named with a leading underscore in the
source, callOpenAIWithRetry: start at attempt 1 with maxRetries minus 1
retry opportunities left. -/
def callOpenAIWithRetry (outcomes : Nat → Except ApiError α) (maxRetries : Nat) :
    Except ApiError α × List Nat :=
  retryAux outcomes 1 (maxRetries - 1)

end AiPlanService6

namespace AiPlanService6

/-- Unfolding lemma: a successful attempt returns at once with no delay. -/
theorem retryAux_ok {α : Type} (outcomes : Nat → Except ApiError α) (attempt remaining : Nat)
    (v : α) (h : outcomes attempt = .ok v) :
    retryAux outcomes attempt remaining = (.ok v, []) := by
  rw [retryAux, h]

/-- Unfolding lemma: an error with no retry opportunity left is rethrown. -/
theorem retryAux_exhausted {α : Type} (outcomes : Nat → Except ApiError α) (attempt : Nat)
    (e : ApiError) (h : outcomes attempt = .error e) :
    retryAux outcomes attempt 0 = (.error e, []) := by
  rw [retryAux, h]

/-- Unfolding lemma: a non-retryable error is rethrown at once. -/
theorem retryAux_noRetry {α : Type} (outcomes : Nat → Except ApiError α)
    (attempt remaining : Nat) (e : ApiError) (h : outcomes attempt = .error e)
    (hr : shouldRetry e = false) :
    retryAux outcomes attempt remaining = (.error e, []) := by
  rw [retryAux, h]
  rcases remaining with _ | r
  · rfl
  · simp [hr]

/-- Unfolding lemma: a retryable error sleeps 2 to the attempt power seconds
and continues with the next attempt. -/
theorem retryAux_retry {α : Type} (outcomes : Nat → Except ApiError α)
    (attempt remaining r : Nat) (hrem : remaining = r + 1) (e : ApiError)
    (h : outcomes attempt = .error e) (hr : shouldRetry e = true) :
    retryAux outcomes attempt remaining
      = ((retryAux outcomes (attempt + 1) r).1,
         (2 ^ attempt * 1000) :: (retryAux outcomes (attempt + 1) r).2) := by
  subst hrem
  rw [retryAux, h]
  simp [hr]

end AiPlanService6

/-- C9, counterexample.  With every attempt failing on rate limit, the
3-attempt loop sleeps 2 then 4 seconds only: the delay list is
[2000, 4000] milliseconds, never the claimed 2s, 4s and 8s, and no 8
second delay ever occurs. -/
theorem c9_counterexample :
    (AiPlanService6.callOpenAIWithRetry
      (fun _ => (.error ⟨some 429, none⟩ : Except ApiError Unit)) 3).2 = [2000, 4000]
    ∧ (AiPlanService6.callOpenAIWithRetry
      (fun _ => (.error ⟨some 429, none⟩ : Except ApiError Unit)) 3).2 ≠ [2000, 4000, 8000]
    ∧ 8000 ∉ (AiPlanService6.callOpenAIWithRetry
      (fun _ => (.error ⟨some 429, none⟩ : Except ApiError Unit)) 3).2 := by
  have h : (AiPlanService6.callOpenAIWithRetry
      (fun _ => (.error ⟨some 429, none⟩ : Except ApiError Unit)) 3).2 = [2000, 4000] := by
    rw [AiPlanService6.callOpenAIWithRetry]
    rw [AiPlanService6.retryAux_retry _ 1 (3 - 1) 1 rfl ⟨some 429, none⟩ rfl (by decide)]
    rw [AiPlanService6.retryAux_retry _ (1 + 1) 1 0 rfl ⟨some 429, none⟩ rfl (by decide)]
    rw [AiPlanService6.retryAux_exhausted _ (1 + 1 + 1) ⟨some 429, none⟩ rfl]
    norm_num
  refine ⟨h, ?_, ?_⟩
  · rw [h]; decide
  · rw [h]; decide

/-- C9, amended claim.  With maxRetries 3 the generation call makes at most
3 attempts with at most two backoff delays, 2s then 4s (the delay list is
always a prefix of [2000, 4000]); a first-attempt error that is neither
status 429 nor code ECONNRESET propagates immediately with no delay, and a
first-attempt success performs no retry. -/
theorem c9_theorem (α : Type) (outcomes : Nat → Except ApiError α) :
    ((AiPlanService6.callOpenAIWithRetry outcomes 3).2 = []
      ∨ (AiPlanService6.callOpenAIWithRetry outcomes 3).2 = [2000]
      ∨ (AiPlanService6.callOpenAIWithRetry outcomes 3).2 = [2000, 4000])
    ∧ (∀ e, outcomes 1 = .error e → AiPlanService6.shouldRetry e = false →
        AiPlanService6.callOpenAIWithRetry outcomes 3 = (.error e, []))
    ∧ (∀ v, outcomes 1 = .ok v →
        AiPlanService6.callOpenAIWithRetry outcomes 3 = (.ok v, [])) := by
  refine ⟨?_, ?_, ?_⟩
  · rw [AiPlanService6.callOpenAIWithRetry]
    rcases h1 : outcomes 1 with e1 | v1
    · by_cases hrty1 : AiPlanService6.shouldRetry e1
      · rw [AiPlanService6.retryAux_retry _ 1 (3 - 1) 1 rfl e1 h1 hrty1]
        rcases h2 : outcomes (1 + 1) with e2 | v2
        · by_cases hrty2 : AiPlanService6.shouldRetry e2
          · rw [AiPlanService6.retryAux_retry _ (1 + 1) 1 0 rfl e2 h2 hrty2]
            rcases h3 : outcomes (1 + 1 + 1) with e3 | v3
            · rw [AiPlanService6.retryAux_exhausted _ (1 + 1 + 1) e3 h3]
              right; right; norm_num
            · rw [AiPlanService6.retryAux_ok _ (1 + 1 + 1) 0 v3 h3]
              right; right; norm_num
          · rw [AiPlanService6.retryAux_noRetry _ (1 + 1) 1 e2 h2
              (Bool.not_eq_true _ ▸ hrty2)]
            right; left; norm_num
        · rw [AiPlanService6.retryAux_ok _ (1 + 1) 1 v2 h2]
          right; left; norm_num
      · rw [AiPlanService6.retryAux_noRetry _ 1 (3 - 1) e1 h1 (Bool.not_eq_true _ ▸ hrty1)]
        left; rfl
    · rw [AiPlanService6.retryAux_ok _ 1 (3 - 1) v1 h1]
      left; rfl
  · intro e h1 hrty
    rw [AiPlanService6.callOpenAIWithRetry]
    exact AiPlanService6.retryAux_noRetry outcomes 1 (3 - 1) e h1 hrty
  · intro v h1
    rw [AiPlanService6.callOpenAIWithRetry]
    exact AiPlanService6.retryAux_ok outcomes 1 (3 - 1) v h1

/-- C9, witness: a plain 500 error on the first attempt propagates at once
with no retries and no delay. -/
theorem c9_witness :
    AiPlanService6.callOpenAIWithRetry
      (fun _ => (.error ⟨some 500, none⟩ : Except ApiError Unit)) 3
      = (.error ⟨some 500, none⟩, []) :=
  (c9_theorem Unit (fun _ => .error ⟨some 500, none⟩)).2.1 ⟨some 500, none⟩ rfl (by decide)

/-- One nutrient entry of the Edamam response. -/
structure EdamamNutrient where
  quantity : ℚ
deriving DecidableEq

/-- The totalNutrients object of the Edamam response (the three fields the
source reads). -/
structure EdamamNutrients where
  PROCNT : Option EdamamNutrient
  CHOCDF : Option EdamamNutrient
  FAT : Option EdamamNutrient
deriving DecidableEq

/-- One recipe of the Edamam response. -/
structure EdamamRecipe where
  label : String
  ingredientLines : List String
  url : String
  yield : Option ℚ
  calories : ℚ
  totalNutrients : EdamamNutrients
  image : String
  uri : String
deriving DecidableEq

/-- One hit of the Edamam response. -/
structure EdamamHit where
  recipe : EdamamRecipe
deriving DecidableEq

/-- Normalized external recipe shape returned by the search endpoint. -/
structure ExtRecipe where
  title : String
  ingredients : List String
  instructions : String
  calories : ℤ
  protein : ℤ
  carbs : ℤ
  fats : ℤ
  imageUrl : String
  source : String
  externalId : String
  servings : ℚ
  sourceUrl : String
deriving DecidableEq

namespace RecipeService5

/-- Normalization of one Edamam hit to the internal recipe shape: divide by
the declared yield (1 when falsy), round per JavaScript Math.round, default
missing nutrients to 0 and tag the row with source edamam. -/
def normalizeHit (hit : EdamamHit) : ExtRecipe :=
  let recipe := hit.recipe
  let servings : ℚ := match recipe.yield with
    | none => 1
    | some y => if y = 0 then 1 else y
  { title := recipe.label
    ingredients := recipe.ingredientLines
    instructions := recipe.url
    calories := round (recipe.calories / servings)
    protein := match recipe.totalNutrients.PROCNT with
      | none => 0
      | some n => round (n.quantity / servings)
    carbs := match recipe.totalNutrients.CHOCDF with
      | none => 0
      | some n => round (n.quantity / servings)
    fats := match recipe.totalNutrients.FAT with
      | none => 0
      | some n => round (n.quantity / servings)
    imageUrl := recipe.image
    source := "edamam"
    externalId := recipe.uri
    servings := servings
    sourceUrl := recipe.url }

/-- Embedding of searchExternalRecipes of part_005: missing credentials
return the empty list, a cache hit returns the cached value, an upstream
failure (any error, retries exhausted included) is caught and returns the
empty list, and a successful response is normalized hit by hit.  The
upstream call with its own retry policy is modelled by the upstream
argument. -/
def searchExternalRecipes (appId appKey : Option String)
    (cached : Option (List ExtRecipe)) (upstream : Except ApiError (List EdamamHit)) :
    List ExtRecipe :=
  if !(jsTruthy appId) || !(jsTruthy appKey) then []
  else match cached with
  | some cachedResult => cachedResult
  | none =>
    match upstream with
    | .error _ => []
    | .ok hits => hits.map normalizeHit

end RecipeService5

/-- Response shape of the search controller: HTTP status, the JSON body
(none models the error body), and whether the X-External-Api-Status header
was set to degraded. -/
structure SearchResponse where
  status : Nat
  result : Option (List ExtRecipe)
  degradedHeader : Bool
deriving DecidableEq

namespace RecipeController

/-- Embedding of searchExternal of part_003: zod rejects a missing or empty
query with status 400; otherwise the service result is returned with status
200 and the degraded header is set exactly when the result array is empty
(and the raw query is truthy). -/
def searchExternal (q : Option String) (appId appKey : Option String)
    (cached : Option (List ExtRecipe)) (upstream : Except ApiError (List EdamamHit)) :
    SearchResponse :=
  match q with
  | none => { status := 400, result := none, degradedHeader := false }
  | some qs =>
    if !(jsStrNonEmpty qs) then { status := 400, result := none, degradedHeader := false }
    else
      let recipes := RecipeService5.searchExternalRecipes appId appKey cached upstream
      { status := 200
        result := some recipes
        degradedHeader := recipes.isEmpty && jsTruthy (some qs) }

end RecipeController

/-- C10, counterexample.  A successful upstream call with zero hits also
yields an empty array, so the degraded header is set even though the
upstream call did not fail: the header signals emptiness, not failure. -/
theorem c10_counterexample :
    RecipeController.searchExternal (some "chicken") (some "id") (some "key") none
      (.ok ([] : List EdamamHit))
      = { status := 200, result := some [], degradedHeader := true }
    ∧ (Except.ok ([] : List EdamamHit) : Except ApiError (List EdamamHit)).isOk = true :=
  ⟨rfl, rfl⟩

/-- C10, amended claim.  For a nonempty query: any upstream failure with a
cold cache, and likewise missing credentials, yield status 200 with the
empty array and the degraded header, never an error status; and in general
the degraded header is set exactly when the returned array is empty, which
includes successful upstream responses with zero hits. -/
theorem c10_theorem (qs : String) (appId appKey : Option String)
    (cached : Option (List ExtRecipe)) (upstream : Except ApiError (List EdamamHit))
    (hq : jsStrNonEmpty qs = true) :
    (∀ err, upstream = .error err → cached = none →
      RecipeController.searchExternal (some qs) appId appKey cached upstream
        = { status := 200, result := some [], degradedHeader := true })
    ∧ ((!(jsTruthy appId) || !(jsTruthy appKey)) = true →
      RecipeController.searchExternal (some qs) appId appKey cached upstream
        = { status := 200, result := some [], degradedHeader := true })
    ∧ ((RecipeController.searchExternal (some qs) appId appKey cached upstream).degradedHeader
        = true
      ↔ (RecipeController.searchExternal (some qs) appId appKey cached upstream).result
        = some []) := by
  have hresp : RecipeController.searchExternal (some qs) appId appKey cached upstream
      = { status := 200
          result := some (RecipeService5.searchExternalRecipes appId appKey cached upstream)
          degradedHeader :=
            (RecipeService5.searchExternalRecipes appId appKey cached upstream).isEmpty } := by
    rw [RecipeController.searchExternal.eq_def]
    simp [jsTruthy, hq]
  refine ⟨?_, ?_, ?_⟩
  · intro err he hc
    subst he; subst hc
    have hr : RecipeService5.searchExternalRecipes appId appKey none (.error err) = [] := by
      rw [RecipeService5.searchExternalRecipes.eq_def]
      by_cases hcreds : (!(jsTruthy appId) || !(jsTruthy appKey)) = true
      · simp [hcreds]
      · simp [Bool.not_eq_true _ ▸ hcreds]
    rw [hresp, hr]
    rfl
  · intro hcreds
    have hr : RecipeService5.searchExternalRecipes appId appKey cached upstream = [] := by
      rw [RecipeService5.searchExternalRecipes.eq_def]
      simp [hcreds]
    rw [hresp, hr]
    rfl
  · rw [hresp]
    simp [List.isEmpty_iff]

/-- C10, witness: upstream failure with valid credentials and a cold cache
produces status 200, the empty array and the degraded header. -/
theorem c10_witness :
    RecipeController.searchExternal (some "chicken") (some "id") (some "key") none
      (.error ⟨some 503, none⟩)
      = { status := 200, result := some [], degradedHeader := true } :=
  ( c10_theorem "chicken" (some "id") (some "key") none (.error ⟨some 503, none⟩)
    (by decide)).1 ⟨some 503, none⟩ rfl rfl
